import Mathlib

/-!
Verification of the StatusSync classification / extraction / reconciliation
pipeline against its natural-language specification.

The definitions below are a shallow embedding of the Python sources.  The
Python string built-ins used by the code are modelled by executable,
structurally recursive functions over the character list of a `String`:
`str.strip()` by `pyStrip`, `str.upper()` / `str.lower()` by `pyUpper` /
`pyLower` (ASCII case mapping), `str.split("\n")` by `splitLines`, slicing
`s[:n]` by `pyTake`, substring containment `pat in s` by `strContains`, and
`str.replace` (used to model template placeholder substitution performed by
`str.format`) by `pyReplace`.  Python dict construction with overwriting
assignment is modelled by an association list read from the right (last
binding wins).  The language-model backend is modelled as an explicit
function argument `gateway : String -> Option String` (the argument is the
fully rendered prompt; `none` is a Gateway failure), and the loaded prompt
template files as explicit `template : String` arguments.
-/

namespace StatusSync

/-- Whitespace characters removed by Python `str.strip()`. -/
def pyIsSpace (c : Char) : Bool :=
  c == ' ' || c == '\t' || c == '\n' || c == '\r' || c == '\x0b' || c == '\x0c'

/-- Model of Python `str.strip()`: drop leading and trailing whitespace. -/
def pyStrip (s : String) : String :=
  ⟨((s.data.dropWhile pyIsSpace).reverse.dropWhile pyIsSpace).reverse⟩

/-- ASCII lower-casing of one character. -/
def lowerChar (c : Char) : Char :=
  if 65 ≤ c.toNat && c.toNat ≤ 90 then Char.ofNat (c.toNat + 32) else c

/-- ASCII upper-casing of one character. -/
def upperChar (c : Char) : Char :=
  if 97 ≤ c.toNat && c.toNat ≤ 122 then Char.ofNat (c.toNat - 32) else c

/-- Model of Python `str.lower()` (ASCII case mapping). -/
def pyLower (s : String) : String := ⟨s.data.map lowerChar⟩

/-- Model of Python `str.upper()` (ASCII case mapping). -/
def pyUpper (s : String) : String := ⟨s.data.map upperChar⟩

/-- Model of Python slicing `s[:n]`: the first `n` characters. -/
def pyTake (s : String) (n : Nat) : String := ⟨s.data.take n⟩

/-- Helper for `splitLines`, structurally recursive on the character list. -/
def splitLinesAux : List Char → List Char → List String
  | [], acc => [⟨acc.reverse⟩]
  | c :: t, acc =>
      if c == '\n' then ⟨acc.reverse⟩ :: splitLinesAux t []
      else splitLinesAux t (c :: acc)

/-- Model of Python `str.split("\n")`: split at every newline, keeping empty
pieces. -/
def splitLines (s : String) : List String := splitLinesAux s.data []

/-- Contiguous-sublist test on character lists, used to model the Python
substring containment test `pat in s`. -/
def listHasSub (pat : List Char) : List Char → Bool
  | [] => pat.isEmpty
  | c :: t => pat.isPrefixOf (c :: t) || listHasSub pat t

/-- Model of the Python substring containment test `pat in s`. -/
def strContains (s pat : String) : Bool :=
  listHasSub pat.data s.data

/-- Helper for `pyReplace`: replace every occurrence of a nonempty pattern,
left to right.  The first argument is fuel bounding the number of steps,
instantiated with the length of the scanned list. -/
def replaceFuel (pat sub : List Char) : Nat → List Char → List Char
  | 0, l => l
  | _ + 1, [] => []
  | n + 1, c :: t =>
      if pat.isPrefixOf (c :: t) && !pat.isEmpty then
        sub ++ replaceFuel pat sub n (t.drop (pat.length - 1))
      else c :: replaceFuel pat sub n t

/-- Model of Python `str.replace(pat, sub)` for a nonempty pattern. -/
def pyReplace (s pat sub : String) : String :=
  ⟨replaceFuel pat.data sub.data s.data.length s.data⟩

/-- Test used by the batch-response parser on an already uppercased line. -/
def hasYES (l : String) : Bool := strContains l "YES"

/-- Test used by the batch-response parser on an already uppercased line. -/
def hasNO (l : String) : Bool := strContains l "NO"

/-- Embedding of the `Email` dataclass of `src/src/models.py` (the
`__post_init__` trimming happens at the source collaborator; only the
stored fields matter here). -/
structure Email where
  subject : String
  body : String
  sender : String
  recipient : String := ""
  date : String := ""
deriving Repr, DecidableEq

/-- Modelled from the spec: the `JobApplicationStatus` dataclass of the final
`models.py` is missing from src/ (only its callers `main.py`,
`google_sheets_service.py` and `example_job_app_info.py` reference it).
Its fields are the ApplicationStatusRecord fields of the spec, exactly the
fields those callers read and write. -/
structure JobApplicationStatus where
  company_name : String
  position_title : String
  status : String
  position_location : String := "unknown"
  action_date : String := "unknown"
  is_job_application_update : Bool := false
deriving Repr, DecidableEq

/-- Embedding of `get_unique_key` of `src/src/models.py`:
`f"{company_name.strip().lower()}|{position_title.strip().lower()}"`. -/
def JobApplicationStatus.getUniqueKey (j : JobApplicationStatus) : String :=
  pyLower (pyStrip j.company_name) ++ "|" ++ pyLower (pyStrip j.position_title)

/-! ### Batch classifier (`src/src/job_application_parser.py`) -/

/-- Embedding of the loop body of `_parse_batch_classification_response`:
strip the response, split into lines, keep the nonblank lines uppercased,
then append `true` for a line containing `YES`, `false` for a line containing
`NO`, and skip any other line. -/
def lineVerdicts (response : String) : List Bool :=
  (((splitLines (pyStrip response)).filter (fun l => pyStrip l != "")).map
      (fun l => pyUpper (pyStrip l))).filterMap
    (fun l => if hasYES l then some true else if hasNO l then some false else none)

/-- The answer lines of a batch response: nonblank lines, uppercased, that
contain `YES` or `NO`.  Exactly the lines `_parse_batch_classification_response`
keeps a verdict for. -/
def answerLines (response : String) : List String :=
  (((splitLines (pyStrip response)).filter (fun l => pyStrip l != "")).map
      (fun l => pyUpper (pyStrip l))).filter
    (fun l => hasYES l || hasNO l)

/-- Embedding of `_parse_batch_classification_response`: line verdicts, padded
with `false` up to `expected` and truncated to `expected`. -/
def parseBatch (response : String) (expected : Nat) : List Bool :=
  (lineVerdicts response ++
      List.replicate (expected - (lineVerdicts response).length) false).take expected

/-- The batch-response parser as claim C3 words it: split the response into
lines and map each line to `true` exactly when it contains the token `YES`
case-insensitively, `false` otherwise; pad missing trailing slots with
`false`; discard lines beyond the first `n`. -/
def claimedBatchParse (response : String) (n : Nat) : List Bool :=
  let verdicts := (splitLines response).map (fun l => hasYES (pyUpper l))
  (verdicts ++ List.replicate (n - verdicts.length) false).take n

/-- Embedding of the numbered subject list built by
`_create_batch_classification_prompt`. -/
def subjectsNumberedList (subjects : List String) : String :=
  String.join (subjects.enum.map
    (fun p => toString (p.1 + 1) ++ ". " ++ p.2 ++ "\n"))

/-- Embedding of `_create_batch_classification_prompt`: the template text with
the numbered subject list substituted for its placeholder. -/
def createBatchPrompt (template : String) (subjects : List String) : String :=
  pyReplace template "{email_subjects_list}" (subjectsNumberedList subjects)

/-- The `(original index, subject)` pairs kept by the filtering loop of
`classify_email_batch` (`if subject and subject.strip()`). -/
def validPairs (subjects : List String) : List (Nat × String) :=
  subjects.enum.filter (fun p => pyStrip p.2 != "")

/-- The trimmed nonblank subjects of a batch, i.e. the `valid_subjects` list
of `classify_email_batch`. -/
def validSubjectsOf (subjects : List String) : List String :=
  (subjects.filter (fun s => pyStrip s != "")).map pyStrip

/-- Embedding of the write-back loop of `classify_email_batch`:
`final_results = [False] * n` followed by `final_results[original_idx] = results[i]`. -/
def scatter (n : Nat) (idxs : List Nat) (results : List Bool) : List Bool :=
  (idxs.zip results).foldl (fun acc p => acc.set p.1 p.2) (List.replicate n false)

/-- Embedding of `classify_email_batch` of `src/src/job_application_parser.py`. -/
def classifyEmailBatch (gateway : String → Option String) (template : String)
    (email_subjects : List String) : List Bool :=
  if email_subjects.isEmpty then []
  else
    let vp := validPairs email_subjects
    let valid_subjects := vp.map (fun p => pyStrip p.2)
    if valid_subjects.isEmpty then List.replicate email_subjects.length false
    else
      match gateway (createBatchPrompt template valid_subjects) with
      | none => List.replicate email_subjects.length false
      | some response =>
          scatter email_subjects.length (vp.map Prod.fst)
            (parseBatch response valid_subjects.length)

/-- The prompt `classify_email_batch` sends through the Gateway, when it sends
one (`none` when the input is empty or holds no nonblank subject). -/
def batchSentPrompt (template : String) (subjects : List String) : Option String :=
  if subjects.isEmpty || (validSubjectsOf subjects).isEmpty then none
  else some (createBatchPrompt template (validSubjectsOf subjects))

/-- The verdict computed for each nonblank subject of a batch, in batch order:
all `false` on Gateway failure, otherwise the parsed response verdicts. -/
def batchVerdicts (gateway : String → Option String) (template : String)
    (subjects : List String) : List Bool :=
  match gateway (createBatchPrompt template (validSubjectsOf subjects)) with
  | none => List.replicate (validSubjectsOf subjects).length false
  | some response => parseBatch response (validSubjectsOf subjects).length

/-! ### Extractor (`src/src/job_application_parser.py`) -/

/-- Embedding of `create_extraction_prompt`: the template text with subject,
sender and the first 1500 characters of the body (`email_body[:1500]`)
substituted for their placeholders. -/
def createExtractionPrompt (template subject sender body : String) : String :=
  pyReplace
    (pyReplace (pyReplace template "{email_subject}" subject)
      "{email_sender}" sender)
    "{email_body}" (pyTake body 1500)

/-- Modelled from the spec: the field-mapping stage of the final
`extract_email_data` (the version returning a `JobApplicationStatus`) is
missing from src/; only its callers are present.  Per the spec, from the
parsed JSON object (modelled as an association list of string fields):
`company_name` / `position_title` / `status` are required and trimmed;
`position_location` and `action_date` default to `"unknown"` when absent
(trimmed when present); `is_job_application_update` is true exactly when the
trimmed, lower-cased value of that field equals `"yes"` (absence means
false). -/
def extractFields (data : List (String × String)) : Option JobApplicationStatus :=
  match data.lookup "company_name", data.lookup "position_title",
      data.lookup "status" with
  | some c, some p, some s =>
      some { company_name := pyStrip c
             position_title := pyStrip p
             status := pyStrip s
             position_location :=
               match data.lookup "position_location" with
               | some v => pyStrip v
               | none => "unknown"
             action_date :=
               match data.lookup "action_date" with
               | some v => pyStrip v
               | none => "unknown"
             is_job_application_update :=
               match data.lookup "is_job_application_update" with
               | some v => pyLower (pyStrip v) == "yes"
               | none => false }
  | _, _, _ => none

/-! ### Reconciler (`src/src/google_sheets_service.py`) -/

/-- A stored spreadsheet row: a list of cell strings in the fixed column order
`[Status, Company, Position, Location, Action Date]`.  The store itself is the
full `values` list returned by the backend, header row first; sheet row number
`r` is list index `r - 1`. -/
abbrev Row := List String

/-- Embedding of the per-row dictionary built by `_get_existing_data`. -/
structure RowEntry where
  row_number : Nat
  status : String
  company : String
  position : String
  location : String
  action_date : String
deriving Repr, DecidableEq

/-- The `RowEntry` `_get_existing_data` builds for sheet row `rn` from row
cells `row` (missing trailing cells read as `""`). -/
def entryOf (rn : Nat) (row : Row) : RowEntry :=
  { row_number := rn
    status := row.getD 0 ""
    company := row.getD 1 ""
    position := row.getD 2 ""
    location := row.getD 3 ""
    action_date := row.getD 4 "" }

/-- The unique key `_get_existing_data` computes for a stored row:
`f"{company.strip().lower()}|{position.strip().lower()}"`. -/
def rowKeyOf (row : Row) : String :=
  pyLower (pyStrip (row.getD 1 "")) ++ "|" ++ pyLower (pyStrip (row.getD 2 ""))

/-- Embedding of the index-building loop of `_get_existing_data`: enumerate
the data rows (skipping the header, sheet row numbers starting at 2), keep
rows with at least three cells, and record their key and entry in order.
Dictionary overwriting is modelled by reading this list from the right. -/
def buildEntries (values : List Row) : List (String × RowEntry) :=
  ((values.drop 1).enum).filterMap
    (fun p =>
      if 3 ≤ p.2.length then some (rowKeyOf p.2, entryOf (p.1 + 2) p.2)
      else none)

/-- Lookup in the `existing_data` dictionary of `_get_existing_data`: the last
binding of a key wins, as with Python dict assignment. -/
def lookupKey (values : List Row) (k : String) : Option RowEntry :=
  ((buildEntries values).reverse).lookup k

/-- Reconciliation outcome of one upsert, per the add / update / no-change
branches of `add_or_update_job_application`. -/
inductive UpsertResult where
  | added
  | updated
  | unchanged
deriving Repr, DecidableEq

/-- Embedding of the per-field merge of `_update_row`:
`incoming if incoming != "unknown" else stored`. -/
def mergeField (incoming stored : String) : String :=
  if incoming = "unknown" then stored else incoming

/-- The row `_add_row` appends for a record. -/
def newRowOf (j : JobApplicationStatus) : Row :=
  [j.status, j.company_name, j.position_title, j.position_location, j.action_date]

/-- The row `_update_row` writes over an existing row, merging each incoming
field (the status included) with the stored entry. -/
def updatedRowOf (j : JobApplicationStatus) (e : RowEntry) : Row :=
  [mergeField j.status e.status,
   mergeField j.company_name e.company,
   mergeField j.position_title e.position,
   mergeField j.position_location e.location,
   mergeField j.action_date e.action_date]

/-- Embedding of `add_or_update_job_application` of
`src/src/google_sheets_service.py`, returning the written store together with
the outcome (the outcome labels follow the return values of the
`google_spreadsheet_service.py` variant, whose branch structure is
identical). -/
def addOrUpdate (values : List Row) (j : JobApplicationStatus) :
    List Row × UpsertResult :=
  match lookupKey values j.getUniqueKey with
  | some e =>
      if e.status != j.status then
        (values.set (e.row_number - 1) (updatedRowOf j e), UpsertResult.updated)
      else (values, UpsertResult.unchanged)
  | none => (values ++ [newRowOf j], UpsertResult.added)

/-! ### Pipeline driver (`src/src/main.py`) -/

/-- Embedding of `MAX_EMAILS_TO_PROCESS` of `src/src/main.py`. -/
def MAX_EMAILS_TO_PROCESS : Nat := 20

/-- Embedding of the selection line of `main`:
`[email for email in emails if email.subject.strip()][:MAX_EMAILS_TO_PROCESS]`. -/
def selectEmails (emails : List Email) : List Email :=
  (emails.filter (fun e => pyStrip e.subject != "")).take MAX_EMAILS_TO_PROCESS

/-- Modelled from the spec: `filter_emails` is missing from src/ (only its
caller `main.py` is present).  Per spec section 4.5 it batch-classifies the
subjects and keeps only the emails flagged job-related, in order; the
classifier is passed in abstractly. -/
def filterEmails (classify : List String → List Bool) (emails : List Email) :
    List Email :=
  ((emails.zip (classify (emails.map (fun e => e.subject)))).filter
      (fun p => p.2)).map Prod.fst

/-- The records `main` reconciles into the store: select at most
`MAX_EMAILS_TO_PROCESS` emails with nonblank subjects, keep the ones flagged
job-related, extract each, drop failed extractions and records not flagged as
job-application updates (the extractor is passed in abstractly, as the final
extractor implementation is missing from src/). -/
def pipelineRecords (classify : List String → List Bool)
    (extract : Email → Option JobApplicationStatus) (emails : List Email) :
    List JobApplicationStatus :=
  (((filterEmails classify (selectEmails emails)).filterMap extract).filter
    (fun r => r.is_job_application_update))

/-! ### Concrete inputs used by witness checks -/

/-- A store with a header row and one data row, as in the update scenario of
the spec. -/
def sampleStore : List Row :=
  [["Status", "Company", "Position", "Location", "Action Date"],
   ["applied", "Acme", "Engineer", "NYC", "5/1"]]

/-- The entry `_get_existing_data` builds for the data row of `sampleStore`. -/
def sampleEntry : RowEntry :=
  { row_number := 2, status := "applied", company := "Acme",
    position := "Engineer", location := "NYC", action_date := "5/1" }

/-- Incoming record of the update scenario of the spec. -/
def sampleUpdate : JobApplicationStatus :=
  { company_name := "Acme", position_title := "Engineer",
    status := "interview_scheduled", position_location := "unknown",
    action_date := "unknown", is_job_application_update := true }

/-- Incoming record whose status is the sentinel `"unknown"`. -/
def sampleUnknownStatus : JobApplicationStatus :=
  { company_name := "Acme", position_title := "Engineer", status := "unknown",
    position_location := "Boston", action_date := "unknown",
    is_job_application_update := true }

/-- A store holding only the header row. -/
def headerOnlyStore : List Row :=
  [["Status", "Company", "Position", "Location", "Action Date"]]

/-- Record used in the add-then-unchanged witness. -/
def sampleAdd : JobApplicationStatus :=
  { company_name := "Acme", position_title := "Engineer", status := "applied",
    position_location := "unknown", action_date := "unknown",
    is_job_application_update := true }

/-- A store holding two data rows whose keys collide and one short row. -/
def dupStore : List Row :=
  [["Status", "Company", "Position", "Location", "Action Date"],
   ["applied", "Acme", "Engineer", "NYC", "5/1"],
   ["x"],
   ["rejected", "acme ", " Engineer", "", ""]]

/-- The entry of the last data row of `dupStore`. -/
def dupEntry : RowEntry :=
  { row_number := 4, status := "rejected", company := "acme ",
    position := " Engineer", location := "", action_date := "" }

/-- Incoming record colliding with both data rows of `dupStore`. -/
def dupIncoming : JobApplicationStatus :=
  { company_name := "Acme", position_title := "Engineer", status := "offer",
    position_location := "unknown", action_date := "unknown",
    is_job_application_update := true }

/-- Record with spaced, capitalised company and position. -/
def spacedAcme : JobApplicationStatus :=
  { company_name := " Acme ", position_title := "Engineer", status := "applied" }

/-- Record naming the same application as `spacedAcme` in different case and
spacing. -/
def loweredAcme : JobApplicationStatus :=
  { company_name := "acme", position_title := " engineer ", status := "applied" }

/-- Gateway stub answering every prompt with the two lines of the spec
scenario. -/
def yesNoGateway : String → Option String := fun _ => some "YES\nNO"

/-- Gateway stub failing on every prompt. -/
def failGateway : String → Option String := fun _ => none

/-- The subject list of the spec scenario. -/
def sampleSubjects : List String :=
  ["Your application to Acme", "Weekly newsletter", ""]

/-- Parsed JSON object holding only the three required extraction fields. -/
def sampleJsonData : List (String × String) :=
  [("company_name", " Acme "), ("position_title", "Eng"), ("status", "applied")]

/-- A body of 1501 characters. -/
def longBody1 : String := ⟨List.replicate 1500 'a' ++ ['b']⟩

/-- A body agreeing with `longBody1` on its first 1500 characters only. -/
def longBody2 : String := ⟨List.replicate 1500 'a' ++ ['c']⟩

/-- Classifier stub flagging every subject. -/
def constClassifier : List String → List Bool := fun l => l.map (fun _ => true)

/-- The record the extractor stub returns. -/
def sampleRecord : JobApplicationStatus :=
  { company_name := "Acme", position_title := "Eng", status := "applied",
    position_location := "unknown", action_date := "unknown",
    is_job_application_update := true }

/-- Extractor stub returning `sampleRecord` for every email. -/
def constExtractor : Email → Option JobApplicationStatus :=
  fun _ => some sampleRecord

/-- Email with a nonblank subject, used by the driver witness. -/
def sampleEmail : Email :=
  { subject := "Offer from Acme", body := "b", sender := "a@b" }

/-! ### Helper lemmas -/

theorem enumFrom_pairwise_fst_lt {α : Type _} (l : List α) (n : Nat) :
    (l.enumFrom n).Pairwise (fun p q => p.1 < q.1) := by
  rw [List.pairwise_iff_getElem]
  intro i j hi hj hij
  have hi' : i < l.length := by simpa using hi
  have hj' : j < l.length := by simpa using hj
  rw [List.getElem_enumFrom, List.getElem_enumFrom]
  omega

theorem validPairs_fst_nodup (subjects : List String) :
    ((validPairs subjects).map Prod.fst).Nodup := by
  have h1 : (validPairs subjects).Pairwise (fun p q => p.1 < q.1) :=
    List.Pairwise.sublist (List.filter_sublist _)
      (by rw [List.enum_eq_enumFrom]; exact enumFrom_pairwise_fst_lt subjects 0)
  exact List.pairwise_map.mpr (h1.imp (fun h => Nat.ne_of_lt h))

theorem mem_validPairs (subjects : List String) (p : Nat × String)
    (hp : p ∈ validPairs subjects) :
    p.1 < subjects.length ∧ subjects.getD p.1 "" = p.2 ∧ pyStrip p.2 ≠ "" := by
  obtain ⟨i, s⟩ := p
  have h1 := (List.mem_filter.mp hp).1
  have h2 := (List.mem_filter.mp hp).2
  rw [List.enum_eq_enumFrom] at h1
  obtain ⟨-, h4⟩ := List.mk_mem_enumFrom_iff_le_and_getElem?_sub.mp h1
  simp only [Nat.sub_zero] at h4
  have h5 : i < subjects.length := by
    by_contra hcon
    rw [List.getElem?_eq_none (by omega)] at h4
    exact Option.noConfusion h4
  refine ⟨h5, ?_, ?_⟩
  · rw [List.getD_eq_getElem?_getD, h4]
    rfl
  · simpa using h2

theorem validPairs_map_strip (subjects : List String) :
    (validPairs subjects).map (fun p => pyStrip p.2) = validSubjectsOf subjects := by
  unfold validPairs validSubjectsOf
  rw [List.enum_eq_enumFrom]
  have h : ∀ (n : Nat),
      ((subjects.enumFrom n).filter (fun p => pyStrip p.2 != "")).map
          (fun p => pyStrip p.2)
        = (subjects.filter (fun s => pyStrip s != "")).map pyStrip := by
    induction subjects with
    | nil => intro n; rfl
    | cons s t ih =>
        intro n
        rw [List.enumFrom_cons]
        cases hs : (pyStrip s != "") with
        | true => simp [List.filter_cons, hs, ih (n + 1)]
        | false => simp [List.filter_cons, hs, ih (n + 1)]
  exact h 0

theorem foldl_set_length (l : List (Nat × Bool)) (acc : List Bool) :
    (l.foldl (fun a p => a.set p.1 p.2) acc).length = acc.length := by
  induction l generalizing acc with
  | nil => rfl
  | cons p t ih => rw [List.foldl_cons, ih, List.length_set]

theorem foldl_set_getD_not_mem (l : List (Nat × Bool)) (acc : List Bool)
    (i : Nat) (h : ∀ p ∈ l, p.1 ≠ i) :
    (l.foldl (fun a p => a.set p.1 p.2) acc).getD i false = acc.getD i false := by
  induction l generalizing acc with
  | nil => rfl
  | cons p t ih =>
      rw [List.foldl_cons, ih _ (fun q hq => h q (List.mem_cons_of_mem p hq))]
      rw [List.getD_eq_getElem?_getD, List.getD_eq_getElem?_getD,
        List.getElem?_set_ne (h p (List.mem_cons_self p t))]

theorem foldl_set_getD_at (l : List (Nat × Bool)) (acc : List Bool)
    (hnd : (l.map Prod.fst).Nodup) (hbd : ∀ p ∈ l, p.1 < acc.length)
    (j : Nat) (hj : j < l.length) :
    (l.foldl (fun a p => a.set p.1 p.2) acc).getD (l.get ⟨j, hj⟩).1 false
      = (l.get ⟨j, hj⟩).2 := by
  induction l generalizing acc j with
  | nil => exact absurd hj (Nat.not_lt_zero j)
  | cons p t ih =>
      rw [List.map_cons] at hnd
      rw [List.foldl_cons]
      match j with
      | 0 =>
          have hne : ∀ q ∈ t, q.1 ≠ p.1 := by
            intro q hq
            have h := (List.pairwise_cons.mp hnd).1 q.1
              (List.mem_map_of_mem Prod.fst hq)
            exact fun he => h he.symm
          rw [show (p :: t).get ⟨0, hj⟩ = p from rfl]
          rw [foldl_set_getD_not_mem t _ p.1 hne]
          rw [List.getD_eq_getElem?_getD,
            List.getElem?_set_self (hbd p (List.mem_cons_self p t))]
          rfl
      | j' + 1 =>
          have hj' : j' < t.length := Nat.lt_of_succ_lt_succ hj
          rw [show (p :: t).get ⟨j' + 1, hj⟩ = t.get ⟨j', hj'⟩ from rfl]
          exact ih (acc.set p.1 p.2) (List.Nodup.of_cons hnd)
            (fun q hq => by
              rw [List.length_set]
              exact hbd q (List.mem_cons_of_mem p hq)) j' hj'

theorem hasYES_empty : hasYES "" = false := rfl

theorem filterMap_verdict_eq (lines : List String) :
    lines.filterMap
        (fun l => if hasYES l then some true else if hasNO l then some false else none)
      = (lines.filter (fun l => hasYES l || hasNO l)).map hasYES := by
  induction lines with
  | nil => rfl
  | cons l t ih =>
      rw [List.filterMap_cons, List.filter_cons]
      cases hy : hasYES l with
      | true => simp [hy, ih]
      | false =>
          cases hn : hasNO l with
          | true => simp [hy, hn, ih]
          | false => simp [hy, hn, ih]

theorem lineVerdicts_eq_map (response : String) :
    lineVerdicts response = (answerLines response).map hasYES := by
  unfold lineVerdicts answerLines
  exact filterMap_verdict_eq _

theorem parseBatch_length (response : String) (n : Nat) :
    (parseBatch response n).length = n := by
  unfold parseBatch
  rw [List.length_take, List.length_append, List.length_replicate]
  omega

theorem parseBatch_getD (response : String) (n i : Nat) (hi : i < n) :
    (parseBatch response n).getD i false
      = hasYES ((answerLines response).getD i "") := by
  unfold parseBatch
  rw [lineVerdicts_eq_map]
  rw [List.getD_eq_getElem?_getD, List.getElem?_take, if_pos hi,
    List.getElem?_append]
  by_cases hlen : i < ((answerLines response).map hasYES).length
  · have hlen' : i < (answerLines response).length := by simpa using hlen
    rw [if_pos hlen, List.getElem?_map, List.getElem?_eq_getElem hlen']
    rw [List.getD_eq_getElem _ _ hlen']
    rfl
  · have hlen' : (answerLines response).length ≤ i := by
      simpa using Nat.le_of_not_lt hlen
    rw [if_neg hlen, List.getElem?_replicate]
    have hsub : i - ((answerLines response).map hasYES).length
        < n - ((answerLines response).map hasYES).length := by
      simp only [List.length_map]
      omega
    rw [if_pos hsub]
    rw [List.getD_eq_getElem?_getD, List.getElem?_eq_none hlen']
    rfl

theorem lookup_reverse_filterMap (k : String) (l : List (Nat × Row)) :
    ((l.filterMap
          (fun p =>
            if 3 ≤ p.2.length then some (rowKeyOf p.2, entryOf (p.1 + 2) p.2)
            else none)).reverse).lookup k
      = ((l.filter
            (fun p => decide (3 ≤ p.2.length) && (rowKeyOf p.2 == k))).getLast?).map
          (fun p => entryOf (p.1 + 2) p.2) := by
  induction l using List.reverseRecOn with
  | nil => rfl
  | append_singleton l a ih =>
      rw [List.filterMap_append, List.filter_append, List.reverse_append,
        List.lookup_append]
      by_cases h3 : 3 ≤ a.2.length
      · by_cases hk : rowKeyOf a.2 = k
        · have hfm : List.filterMap
              (fun p =>
                if 3 ≤ p.2.length then some (rowKeyOf p.2, entryOf (p.1 + 2) p.2)
                else none) [a] = [(rowKeyOf a.2, entryOf (a.1 + 2) a.2)] := by
            simp [h3]
          have hfl : List.filter
              (fun p => decide (3 ≤ p.2.length) && (rowKeyOf p.2 == k)) [a]
                = [a] := by
            simp [h3, hk]
          rw [hfm, hfl]
          rw [List.getLast?_concat]
          simp [List.lookup_cons, hk]
        · have hfm : List.filterMap
              (fun p =>
                if 3 ≤ p.2.length then some (rowKeyOf p.2, entryOf (p.1 + 2) p.2)
                else none) [a] = [(rowKeyOf a.2, entryOf (a.1 + 2) a.2)] := by
            simp [h3]
          have hfl : List.filter
              (fun p => decide (3 ≤ p.2.length) && (rowKeyOf p.2 == k)) [a]
                = [] := by
            simp [h3, hk]
          rw [hfm, hfl, List.append_nil]
          have hne : (k == rowKeyOf a.2) = false :=
            beq_eq_false_iff_ne.mpr (fun h => hk h.symm)
          have hlk : List.lookup k [(rowKeyOf a.2, entryOf (a.1 + 2) a.2)].reverse
              = none := by
            simp [List.lookup_cons, hne]
          rw [hlk, Option.none_or]
          exact ih
      · have hfm : List.filterMap
            (fun p =>
              if 3 ≤ p.2.length then some (rowKeyOf p.2, entryOf (p.1 + 2) p.2)
              else none) [a] = [] := by
          simp [h3]
        have hfl : List.filter
            (fun p => decide (3 ≤ p.2.length) && (rowKeyOf p.2 == k)) [a]
              = [] := by
          simp [h3]
        rw [hfm, hfl, List.append_nil]
        rw [show ([] : List (String × RowEntry)).reverse = [] from rfl]
        rw [show List.lookup k ([] : List (String × RowEntry)) = none from rfl,
          Option.none_or]
        exact ih

/-- The `existing_data` lookup returns exactly the entry of the last data row
with at least three cells whose computed key matches. -/
theorem lookupKey_eq_lastMatch (values : List Row) (k : String) :
    lookupKey values k
      = (((values.drop 1).enum.filter
            (fun p => decide (3 ≤ p.2.length) && (rowKeyOf p.2 == k))).getLast?).map
          (fun p => entryOf (p.1 + 2) p.2) :=
  lookup_reverse_filterMap k ((values.drop 1).enum)

/-- A successful `existing_data` lookup comes from an actual stored data row:
the entry fields are read off the row at sheet position `row_number`, that row
has at least three cells, and its key matches. -/
theorem lookupKey_some_src (values : List Row) (k : String) (e : RowEntry)
    (h : lookupKey values k = some e) :
    2 ≤ e.row_number ∧ e.row_number - 1 < values.length
      ∧ 3 ≤ (values.getD (e.row_number - 1) []).length
      ∧ rowKeyOf (values.getD (e.row_number - 1) []) = k
      ∧ e = entryOf e.row_number (values.getD (e.row_number - 1) []) := by
  rw [lookupKey_eq_lastMatch] at h
  obtain ⟨p, hp, he⟩ := Option.map_eq_some'.mp h
  obtain ⟨hne, hpl⟩ := List.mem_getLast?_eq_getLast hp
  have hmem : p ∈ (values.drop 1).enum.filter
      (fun p => decide (3 ≤ p.2.length) && (rowKeyOf p.2 == k)) := by
    rw [hpl]
    exact List.getLast_mem hne
  have hmem1 := (List.mem_filter.mp hmem).1
  have hmem2 := (List.mem_filter.mp hmem).2
  obtain ⟨h3, hkey⟩ := Bool.and_eq_true_iff.mp hmem2
  have h3' : 3 ≤ p.2.length := of_decide_eq_true h3
  have hkey' : rowKeyOf p.2 = k := beq_iff_eq.mp hkey
  obtain ⟨i, row⟩ := p
  rw [List.enum_eq_enumFrom] at hmem1
  obtain ⟨-, hget⟩ := List.mk_mem_enumFrom_iff_le_and_getElem?_sub.mp hmem1
  simp only [Nat.sub_zero] at hget
  rw [List.getElem?_drop] at hget
  have hbound : 1 + i < values.length := by
    by_contra hcon
    rw [List.getElem?_eq_none (by omega)] at hget
    exact Option.noConfusion hget
  have hrn : e.row_number = i + 2 := by rw [← he]; rfl
  have hgd : values.getD (e.row_number - 1) [] = row := by
    rw [hrn, show i + 2 - 1 = 1 + i by omega, List.getD_eq_getElem?_getD, hget]
    rfl
  refine ⟨by omega, by omega, ?_, ?_, ?_⟩
  · rw [hgd]; exact h3'
  · rw [hgd]; exact hkey'
  · rw [hgd, ← he]; rfl

/-- The key of a freshly appended row is the unique key of the record it was
built from. -/
theorem rowKeyOf_newRowOf (j : JobApplicationStatus) :
    rowKeyOf (newRowOf j) = j.getUniqueKey := rfl

theorem buildEntries_append_row (v : Row) (rest : List Row) (row : Row)
    (h3 : 3 ≤ row.length) :
    buildEntries ((v :: rest) ++ [row])
      = buildEntries (v :: rest) ++ [(rowKeyOf row, entryOf (rest.length + 2) row)] := by
  unfold buildEntries
  rw [show ((v :: rest) ++ [row]).drop 1 = rest ++ [row] from rfl,
    show (v :: rest).drop 1 = rest from rfl]
  rw [List.enum_eq_enumFrom, List.enum_eq_enumFrom, List.enumFrom_append,
    List.filterMap_append]
  congr 1
  simp [h3]

/-- Looking up the key of a just-appended data row finds exactly that row
(appended rows are last, and the last binding wins). -/
theorem lookupKey_append_self (v : Row) (rest : List Row) (row : Row)
    (h3 : 3 ≤ row.length) :
    lookupKey ((v :: rest) ++ [row]) (rowKeyOf row)
      = some (entryOf (rest.length + 2) row) := by
  unfold lookupKey
  rw [buildEntries_append_row v rest row h3, List.reverse_append]
  simp [List.lookup_cons]

theorem addOrUpdate_of_lookup_some (values : List Row) (j : JobApplicationStatus)
    (e : RowEntry) (h : lookupKey values j.getUniqueKey = some e) :
    addOrUpdate values j
      = if (e.status != j.status) = true then
          (values.set (e.row_number - 1) (updatedRowOf j e), UpsertResult.updated)
        else (values, UpsertResult.unchanged) := by
  unfold addOrUpdate
  rw [h]

theorem addOrUpdate_of_lookup_none (values : List Row) (j : JobApplicationStatus)
    (h : lookupKey values j.getUniqueKey = none) :
    addOrUpdate values j = (values ++ [newRowOf j], UpsertResult.added) := by
  unfold addOrUpdate
  rw [h]

/-! ### Claim theorems -/

/-- C7: two records whose company names agree up to surrounding whitespace and
letter case, and whose position titles likewise agree, compute equal unique
keys, and each key is lower(trim(company)) ++ "|" ++ lower(trim(position)). -/
theorem spec_c7 (j1 j2 : JobApplicationStatus)
    (hc : pyLower (pyStrip j1.company_name) = pyLower (pyStrip j2.company_name))
    (hp : pyLower (pyStrip j1.position_title) = pyLower (pyStrip j2.position_title)) :
    j1.getUniqueKey = j2.getUniqueKey
      ∧ j1.getUniqueKey
          = pyLower (pyStrip j1.company_name) ++ "|" ++ pyLower (pyStrip j1.position_title) := by
  refine ⟨?_, rfl⟩
  unfold JobApplicationStatus.getUniqueKey
  rw [hc, hp]

/-- Witness for C7 at the collision pair of the spec. -/
theorem spec_c7_witness :
    spacedAcme.getUniqueKey = loweredAcme.getUniqueKey
      ∧ spacedAcme.getUniqueKey = "acme|engineer" :=
  ⟨(spec_c7 spacedAcme loweredAcme (by decide) (by decide)).1,
   (spec_c7 spacedAcme loweredAcme (by decide) (by decide)).2⟩

/-- C8: two emails agreeing on subject and sender whose bodies agree on the
first 1500 characters render the identical extraction prompt; characters at or
beyond offset 1500 never influence the prompt. -/
theorem spec_c8 (template subject sender b1 b2 : String)
    (h : pyTake b1 1500 = pyTake b2 1500) :
    createExtractionPrompt template subject sender b1
      = createExtractionPrompt template subject sender b2 := by
  unfold createExtractionPrompt
  rw [h]

/-- Witness for C8 on two 1501-character bodies differing at offset 1500. -/
theorem spec_c8_witness :
    createExtractionPrompt "T {email_body}" "s" "f" longBody1
      = createExtractionPrompt "T {email_body}" "s" "f" longBody2 :=
  spec_c8 "T {email_body}" "s" "f" longBody1 longBody2 (by
    have key : ∀ (c : Char),
        (List.replicate 1500 'a' ++ [c]).take 1500 = List.replicate 1500 'a' := by
      intro c
      calc (List.replicate 1500 'a' ++ [c]).take 1500
          = (List.replicate 1500 'a' ++ [c]).take (List.replicate 1500 'a').length := by
            rw [List.length_replicate]
        _ = List.replicate 1500 'a' := List.take_left _ _
    show (⟨(List.replicate 1500 'a' ++ ['b']).take 1500⟩ : String)
      = ⟨(List.replicate 1500 'a' ++ ['c']).take 1500⟩
    rw [key 'b', key 'c'])

/-- C6: when the parsed JSON object holds the three required keys, extraction
succeeds; company name, position title and status are the trimmed parsed
values, location and action date are `"unknown"` when their keys are absent,
and the update flag is true exactly when the trimmed, lower-cased value of its
key equals `"yes"` (absence meaning false). -/
theorem spec_c6 (data : List (String × String)) (c p s : String)
    (hc : data.lookup "company_name" = some c)
    (hp : data.lookup "position_title" = some p)
    (hs : data.lookup "status" = some s) :
    (extractFields data).map JobApplicationStatus.company_name = some (pyStrip c)
  ∧ (extractFields data).map JobApplicationStatus.position_title = some (pyStrip p)
  ∧ (extractFields data).map JobApplicationStatus.status = some (pyStrip s)
  ∧ (data.lookup "position_location" = none →
      (extractFields data).map JobApplicationStatus.position_location = some "unknown")
  ∧ (data.lookup "action_date" = none →
      (extractFields data).map JobApplicationStatus.action_date = some "unknown")
  ∧ (extractFields data).map JobApplicationStatus.is_job_application_update
      = some (pyLower (pyStrip ((data.lookup "is_job_application_update").getD "")) == "yes") := by
  unfold extractFields
  rw [hc, hp, hs]
  refine ⟨rfl, rfl, rfl, ?_, ?_, ?_⟩
  · intro h
    rw [h]
    rfl
  · intro h
    rw [h]
    rfl
  · cases hu : data.lookup "is_job_application_update" with
    | none => rfl
    | some v => rfl

/-- Witness for C6 on a parsed object holding only the three required keys. -/
theorem spec_c6_witness :
    (extractFields sampleJsonData).map JobApplicationStatus.company_name = some "Acme"
  ∧ (extractFields sampleJsonData).map JobApplicationStatus.position_location = some "unknown"
  ∧ (extractFields sampleJsonData).map JobApplicationStatus.is_job_application_update = some false :=
  ⟨(spec_c6 sampleJsonData " Acme " "Eng" "applied" rfl rfl rfl).1,
   (spec_c6 sampleJsonData " Acme " "Eng" "applied" rfl rfl rfl).2.2.2.1 rfl,
   (spec_c6 sampleJsonData " Acme " "Eng" "applied" rfl rfl rfl).2.2.2.2.2⟩

/-- C1 as stated is false: when the incoming status is the sentinel
`"unknown"` and the stored status differs, the row is updated but the written
status keeps the previously stored value instead of the incoming status. -/
theorem spec_c1_counterexample :
    lookupKey sampleStore sampleUnknownStatus.getUniqueKey = some sampleEntry
  ∧ sampleEntry.status ≠ sampleUnknownStatus.status
  ∧ (addOrUpdate sampleStore sampleUnknownStatus).2 = UpsertResult.updated
  ∧ ((addOrUpdate sampleStore sampleUnknownStatus).1.getD 1 []).getD 0 ""
      ≠ sampleUnknownStatus.status := by
  decide

/-- C1 (amended): when the unique key matches a stored row and the stored
status differs from the incoming status, upsert updates that row in place and
yields `updated`; each written field, the status included, equals the
previously stored cell if the corresponding incoming value is `"unknown"` and
the incoming value otherwise; all other rows are unchanged. -/
theorem spec_c1 (values : List Row) (j : JobApplicationStatus) (e : RowEntry)
    (hl : lookupKey values j.getUniqueKey = some e) (hs : e.status ≠ j.status) :
    (addOrUpdate values j).2 = UpsertResult.updated
  ∧ e.row_number - 1 < values.length
  ∧ (addOrUpdate values j).1.getD (e.row_number - 1) []
      = [mergeField j.status ((values.getD (e.row_number - 1) []).getD 0 ""),
         mergeField j.company_name ((values.getD (e.row_number - 1) []).getD 1 ""),
         mergeField j.position_title ((values.getD (e.row_number - 1) []).getD 2 ""),
         mergeField j.position_location ((values.getD (e.row_number - 1) []).getD 3 ""),
         mergeField j.action_date ((values.getD (e.row_number - 1) []).getD 4 "")]
  ∧ (∀ i, i ≠ e.row_number - 1 →
      (addOrUpdate values j).1.getD i [] = values.getD i [])
  ∧ (addOrUpdate values j).1.length = values.length := by
  obtain ⟨h2, hbd, h3, hkey, hent⟩ := lookupKey_some_src values _ e hl
  have hres : addOrUpdate values j
      = (values.set (e.row_number - 1) (updatedRowOf j e), UpsertResult.updated) := by
    rw [addOrUpdate_of_lookup_some values j e hl, if_pos (bne_iff_ne.mpr hs)]
  rw [hres]
  refine ⟨rfl, hbd, ?_, ?_, List.length_set values _ _⟩
  · have hself : (values.set (e.row_number - 1) (updatedRowOf j e)).getD
        (e.row_number - 1) [] = updatedRowOf j e := by
      rw [List.getD_eq_getElem?_getD, List.getElem?_set_self hbd]
      rfl
    rw [hself]
    rw [show updatedRowOf j e
        = [mergeField j.status e.status, mergeField j.company_name e.company,
           mergeField j.position_title e.position,
           mergeField j.position_location e.location,
           mergeField j.action_date e.action_date] from rfl]
    rw [hent]
    rfl
  · intro i hi
    rw [List.getD_eq_getElem?_getD, List.getElem?_set_ne (fun h => hi h.symm),
      List.getD_eq_getElem?_getD]

/-- Witness for C1 at the update scenario of the spec: the row is rewritten,
the result is `updated`, and the stored location survives the `"unknown"`
incoming location. -/
theorem spec_c1_witness :
    (addOrUpdate sampleStore sampleUpdate).2 = UpsertResult.updated
  ∧ (addOrUpdate sampleStore sampleUpdate).1.getD 1 []
      = ["interview_scheduled", "Acme", "Engineer", "NYC", "5/1"] :=
  ⟨(spec_c1 sampleStore sampleUpdate sampleEntry (by decide) (by decide)).1,
   (spec_c1 sampleStore sampleUpdate sampleEntry (by decide) (by decide)).2.2.1⟩

/-- C2: a record whose key is absent is appended and yields `added`;
immediately upserting the identical record again writes nothing and yields
`unchanged`.  The store is assumed to hold its header row, per the interface
(header at position 1, data from position 2). -/
theorem spec_c2 (values : List Row) (j : JobApplicationStatus)
    (hlen : 1 ≤ values.length)
    (habs : lookupKey values j.getUniqueKey = none) :
    addOrUpdate values j = (values ++ [newRowOf j], UpsertResult.added)
  ∧ addOrUpdate (values ++ [newRowOf j]) j
      = (values ++ [newRowOf j], UpsertResult.unchanged) := by
  constructor
  · exact addOrUpdate_of_lookup_none values j habs
  · obtain ⟨v, rest, rfl⟩ : ∃ v rest, values = v :: rest := by
      cases values with
      | nil => exact absurd hlen (by decide)
      | cons v rest => exact ⟨v, rest, rfl⟩
    have h5 : 3 ≤ (newRowOf j).length := by
      show (3 : Nat) ≤ 5
      decide
    have hlook := lookupKey_append_self v rest (newRowOf j) h5
    rw [rowKeyOf_newRowOf] at hlook
    have hcond : ((entryOf (rest.length + 2) (newRowOf j)).status != j.status)
        = false := by
      rw [show (entryOf (rest.length + 2) (newRowOf j)).status = j.status from rfl]
      exact bne_self_eq_false j.status
    rw [addOrUpdate_of_lookup_some (v :: rest ++ [newRowOf j]) j
        (entryOf (rest.length + 2) (newRowOf j)) hlook]
    rw [hcond, if_neg (by decide)]

/-- Witness for C2: adding a record to a header-only store, then upserting it
again unchanged. -/
theorem spec_c2_witness :
    addOrUpdate headerOnlyStore sampleAdd
      = (headerOnlyStore ++ [newRowOf sampleAdd], UpsertResult.added)
  ∧ addOrUpdate (headerOnlyStore ++ [newRowOf sampleAdd]) sampleAdd
      = (headerOnlyStore ++ [newRowOf sampleAdd], UpsertResult.unchanged) :=
  spec_c2 headerOnlyStore sampleAdd (by decide) (by decide)

/-- C10: the key index retains, for each key, exactly the last data row with
at least three cells whose computed key matches (rows with fewer than three
cells are never indexed), and an update triggered through the index writes
only that last row, leaving every other row, earlier duplicates included,
unchanged. -/
theorem spec_c10 (values : List Row) (k : String) (j : JobApplicationStatus)
    (e : RowEntry) :
    lookupKey values k
      = (((values.drop 1).enum.filter
            (fun p => decide (3 ≤ p.2.length) && (rowKeyOf p.2 == k))).getLast?).map
          (fun p => entryOf (p.1 + 2) p.2)
  ∧ (lookupKey values j.getUniqueKey = some e → e.status ≠ j.status →
      ∀ i, i ≠ e.row_number - 1 →
        (addOrUpdate values j).1.getD i [] = values.getD i []) := by
  refine ⟨lookupKey_eq_lastMatch values k, ?_⟩
  intro hl hs i hi
  have hres : addOrUpdate values j
      = (values.set (e.row_number - 1) (updatedRowOf j e), UpsertResult.updated) := by
    rw [addOrUpdate_of_lookup_some values j e hl, if_pos (bne_iff_ne.mpr hs)]
  rw [hres]
  rw [List.getD_eq_getElem?_getD, List.getElem?_set_ne (fun h => hi h.symm),
    List.getD_eq_getElem?_getD]

/-- Witness for C10 on a store with two rows of the same key and a short row:
the index points at the later duplicate, and updating leaves the earlier
duplicate row untouched. -/
theorem spec_c10_witness :
    lookupKey dupStore "acme|engineer"
      = (((dupStore.drop 1).enum.filter
            (fun p => decide (3 ≤ p.2.length) && (rowKeyOf p.2 == "acme|engineer"))).getLast?).map
          (fun p => entryOf (p.1 + 2) p.2)
  ∧ (addOrUpdate dupStore dupIncoming).1.getD 1 [] = dupStore.getD 1 [] :=
  ⟨(spec_c10 dupStore "acme|engineer" dupIncoming dupEntry).1,
   (spec_c10 dupStore "acme|engineer" dupIncoming dupEntry).2
     (by decide) (by decide) 1 (by decide)⟩

theorem classifyEmailBatch_eq (gateway : String → Option String)
    (template : String) (s : List String) :
    classifyEmailBatch gateway template s
      = if s.isEmpty then []
        else if (validSubjectsOf s).isEmpty then List.replicate s.length false
        else
          match gateway (createBatchPrompt template (validSubjectsOf s)) with
          | none => List.replicate s.length false
          | some response =>
              scatter s.length ((validPairs s).map Prod.fst)
                (parseBatch response (validSubjectsOf s).length) := by
  simp only [classifyEmailBatch]
  rw [validPairs_map_strip]

/-- C5: with at least one nonblank subject, a failed Gateway call makes the
batch classifier return `false` at every output position. -/
theorem spec_c5 (gateway : String → Option String) (template : String)
    (subjects : List String) (hne : ∃ s ∈ subjects, pyStrip s ≠ "")
    (hfail : gateway (createBatchPrompt template (validSubjectsOf subjects)) = none) :
    classifyEmailBatch gateway template subjects
      = List.replicate subjects.length false
  ∧ ∀ i, (classifyEmailBatch gateway template subjects).getD i false = false := by
  obtain ⟨s, hsmem, hsne⟩ := hne
  have hemp : subjects.isEmpty = false := by
    cases subjects with
    | nil => cases hsmem
    | cons a t => rfl
  have hvne : pyStrip s ∈ validSubjectsOf subjects := by
    unfold validSubjectsOf
    exact List.mem_map_of_mem pyStrip
      (List.mem_filter.mpr ⟨hsmem, bne_iff_ne.mpr hsne⟩)
  have hval : (validSubjectsOf subjects).isEmpty = false := by
    cases hv : validSubjectsOf subjects with
    | nil => rw [hv] at hvne; cases hvne
    | cons a t => rfl
  have hmain : classifyEmailBatch gateway template subjects
      = List.replicate subjects.length false := by
    rw [classifyEmailBatch_eq, hemp, hval]
    rw [if_neg (by decide), if_neg (by decide), hfail]
  refine ⟨hmain, ?_⟩
  intro i
  rw [hmain, List.getD_eq_getElem?_getD, List.getElem?_replicate]
  by_cases hi : i < subjects.length
  · rw [if_pos hi]
    rfl
  · rw [if_neg hi]
    rfl

/-- Witness for C5 on the scenario subjects with a failing gateway. -/
theorem spec_c5_witness :
    classifyEmailBatch failGateway "" sampleSubjects = List.replicate 3 false :=
  (spec_c5 failGateway "" sampleSubjects
    ⟨"Your application to Acme", by decide, by decide⟩ rfl).1

/-- C3 as stated is false: a line containing neither YES nor NO is skipped,
not mapped to false, so later answers shift earlier.  On response
`"MAYBE\nYES"` with two subjects the code yields `[true, false]` where the
claimed per-line mapping yields `[false, true]`. -/
theorem spec_c3_counterexample :
    parseBatch "MAYBE\nYES" 2 = [true, false]
  ∧ claimedBatchParse "MAYBE\nYES" 2 = [false, true]
  ∧ parseBatch "MAYBE\nYES" 2 ≠ claimedBatchParse "MAYBE\nYES" 2 := by
  decide

/-- C3 (amended): the response is trimmed and split into lines; blank lines
and lines containing neither YES nor NO (after uppercasing) are discarded;
the i-th result is true exactly when the i-th surviving answer line contains
YES, slots past the last answer line are false, answer lines beyond the first
n are discarded, and the result always has length n.  The scenario holds:
subjects `["Your application to Acme", "Weekly newsletter", ""]` with backend
response `"YES\nNO"` classify as `[true, false, false]`. -/
theorem spec_c3 (response : String) (n i : Nat) (hi : i < n) :
    (parseBatch response n).length = n
  ∧ (parseBatch response n).getD i false
      = hasYES ((answerLines response).getD i "")
  ∧ (∀ template,
      classifyEmailBatch yesNoGateway template sampleSubjects
        = [true, false, false]) := by
  refine ⟨parseBatch_length response n, parseBatch_getD response n i hi, ?_⟩
  intro template
  rfl

/-- Witness for C3: the padded slot of a two-line response over three
subjects is false, and the spec scenario evaluates as claimed. -/
theorem spec_c3_witness :
    (parseBatch "YES\nNO" 3).getD 2 false = false
  ∧ classifyEmailBatch yesNoGateway "T" sampleSubjects = [true, false, false] :=
  ⟨(spec_c3 "YES\nNO" 3 2 (by decide)).2.1,
   (spec_c3 "YES\nNO" 3 2 (by decide)).2.2 "T"⟩

theorem replicate_getD_false (n i : Nat) :
    (List.replicate n false).getD i false = false := by
  rw [List.getD_eq_getElem?_getD, List.getElem?_replicate]
  by_cases hi : i < n
  · rw [if_pos hi]
    rfl
  · rw [if_neg hi]
    rfl

theorem validSubjects_length (s : List String) :
    (validSubjectsOf s).length = (validPairs s).length := by
  rw [← validPairs_map_strip, List.length_map]

theorem scatter_length (n : Nat) (idxs : List Nat) (results : List Bool) :
    (scatter n idxs results).length = n := by
  unfold scatter
  rw [foldl_set_length, List.length_replicate]

theorem scatter_getD_false (n : Nat) (idxs : List Nat) (results : List Bool)
    (i : Nat) (h : ∀ q ∈ idxs, q ≠ i) :
    (scatter n idxs results).getD i false = false := by
  unfold scatter
  rw [foldl_set_getD_not_mem _ _ _
    (fun p hp => h p.1 (List.of_mem_zip hp).1)]
  exact replicate_getD_false n i

theorem validPairs_fst_ne_of_blank (s : List String) (i : Nat)
    (hblank : pyStrip (s.getD i "") = "") :
    ∀ q ∈ (validPairs s).map Prod.fst, q ≠ i := by
  intro q hq he
  obtain ⟨p, hp, hpq⟩ := List.mem_map.mp hq
  obtain ⟨hb, hgd, hnb⟩ := mem_validPairs s p hp
  apply hnb
  rw [← hgd, hpq, he, hblank]

theorem scatter_validPairs_getD (s : List String) (results : List Bool)
    (hlen : results.length = (validPairs s).length)
    (j : Nat) (hj : j < (validPairs s).length) :
    (scatter s.length ((validPairs s).map Prod.fst) results).getD
        ((validPairs s).getD j (0, "")).1 false
      = results.getD j false := by
  unfold scatter
  have hlenidxs : ((validPairs s).map Prod.fst).length = (validPairs s).length :=
    List.length_map _ _
  have hzlen : (((validPairs s).map Prod.fst).zip results).length
      = (validPairs s).length := by
    rw [List.length_zip, hlenidxs, hlen]
    exact Nat.min_self _
  have hj' : j < (((validPairs s).map Prod.fst).zip results).length := by omega
  have hnd : ((((validPairs s).map Prod.fst).zip results).map Prod.fst).Nodup := by
    rw [List.map_fst_zip _ results (by omega)]
    exact validPairs_fst_nodup s
  have hbd : ∀ p ∈ ((validPairs s).map Prod.fst).zip results,
      p.1 < (List.replicate s.length false).length := by
    intro p hp
    rw [List.length_replicate]
    have h1 : p.1 ∈ (validPairs s).map Prod.fst := (List.of_mem_zip hp).1
    obtain ⟨q, hq, hq2⟩ := List.mem_map.mp h1
    have hb := (mem_validPairs s q hq).1
    omega
  have hmain := foldl_set_getD_at (((validPairs s).map Prod.fst).zip results)
    (List.replicate s.length false) hnd hbd j hj'
  have hjx : j < ((validPairs s).map Prod.fst).length := by omega
  have hjr : j < results.length := by omega
  have hget : (((validPairs s).map Prod.fst).zip results).get ⟨j, hj'⟩
      = (((validPairs s).map Prod.fst).get ⟨j, hjx⟩, results.get ⟨j, hjr⟩) := by
    rw [List.get_eq_getElem, List.get_eq_getElem, List.get_eq_getElem,
      List.getElem_zip]
  rw [hget] at hmain
  have hidx : ((validPairs s).map Prod.fst).get ⟨j, hjx⟩
      = ((validPairs s).getD j (0, "")).1 := by
    rw [List.get_eq_getElem, List.getElem_map, List.getD_eq_getElem _ _ hj]
  have hres : results.get ⟨j, hjr⟩ = results.getD j false := by
    rw [List.get_eq_getElem, List.getD_eq_getElem _ _ hjr]
  rw [hidx, hres] at hmain
  exact hmain

theorem batchSentPrompt_eq_some (template : String) (s : List String)
    (hemp : s.isEmpty = false) (hval : (validSubjectsOf s).isEmpty = false) :
    batchSentPrompt template s
      = some (createBatchPrompt template (validSubjectsOf s)) := by
  unfold batchSentPrompt
  rw [hemp, hval]
  rfl

theorem validSubjectsOf_filter (s : List String) :
    validSubjectsOf (s.filter (fun x => pyStrip x != "")) = validSubjectsOf s := by
  unfold validSubjectsOf
  rw [List.filter_filter]
  have h : (fun a => (pyStrip a != "") && (pyStrip a != ""))
      = (fun a => pyStrip a != "") := by
    funext a
    exact Bool.and_self _
  rw [h]

theorem batchSentPrompt_filter (template : String) (s : List String) :
    batchSentPrompt template s
      = batchSentPrompt template (s.filter (fun x => pyStrip x != "")) := by
  unfold batchSentPrompt
  rw [validSubjectsOf_filter]
  by_cases hv : (validSubjectsOf s).isEmpty = true
  · rw [hv]
    simp
  · have hv' : (validSubjectsOf s).isEmpty = false := by
      revert hv
      cases (validSubjectsOf s).isEmpty <;> simp
    have hfe : (s.filter (fun x => pyStrip x != "")).isEmpty = false := by
      cases hf : s.filter (fun x => pyStrip x != "") with
      | nil =>
          exfalso
          unfold validSubjectsOf at hv'
          rw [hf] at hv'
          simp at hv'
      | cons a t => rfl
    have hse : s.isEmpty = false := by
      cases s with
      | nil =>
          exfalso
          simp [validSubjectsOf] at hv'
      | cons a t => rfl
    rw [hse, hfe]

theorem classify_gateway_congr (gateway gateway2 : String → Option String)
    (template : String) (s : List String)
    (h : ∀ p, batchSentPrompt template s = some p → gateway p = gateway2 p) :
    classifyEmailBatch gateway template s
      = classifyEmailBatch gateway2 template s := by
  rw [classifyEmailBatch_eq, classifyEmailBatch_eq]
  by_cases hemp : s.isEmpty = true
  · rw [if_pos hemp, if_pos hemp]
  · have hemp' : s.isEmpty = false := by
      revert hemp
      cases s.isEmpty <;> simp
    by_cases hval : (validSubjectsOf s).isEmpty = true
    · rw [if_neg hemp, if_neg hemp, if_pos hval, if_pos hval]
    · have hval' : (validSubjectsOf s).isEmpty = false := by
        revert hval
        cases (validSubjectsOf s).isEmpty <;> simp
      rw [h _ (batchSentPrompt_eq_some template s hemp' hval')]

/-- C4: the batch classifier returns exactly one boolean per input subject;
blank (empty or whitespace-only) positions are false; the position of the
j-th nonblank subject carries the j-th per-subject verdict of the batch call;
the output depends on the Gateway only through the one sent prompt, and that
prompt is unchanged when blank subjects are removed from the input (blank
subjects are excluded from the outbound prompt). -/
theorem spec_c4 (gateway : String → Option String) (template : String)
    (subjects : List String) :
    (classifyEmailBatch gateway template subjects).length = subjects.length
  ∧ (∀ i, i < subjects.length → pyStrip (subjects.getD i "") = "" →
      (classifyEmailBatch gateway template subjects).getD i false = false)
  ∧ (∀ j, j < (validPairs subjects).length →
      (classifyEmailBatch gateway template subjects).getD
          ((validPairs subjects).getD j (0, "")).1 false
        = (batchVerdicts gateway template subjects).getD j false)
  ∧ (∀ gateway2,
      (∀ p, batchSentPrompt template subjects = some p →
        gateway p = gateway2 p) →
      classifyEmailBatch gateway template subjects
        = classifyEmailBatch gateway2 template subjects)
  ∧ batchSentPrompt template subjects
      = batchSentPrompt template (subjects.filter (fun x => pyStrip x != "")) := by
  refine ⟨?_, ?_, ?_,
    fun g2 h => classify_gateway_congr gateway g2 template subjects h,
    batchSentPrompt_filter template subjects⟩
  · rw [classifyEmailBatch_eq]
    by_cases hemp : subjects.isEmpty = true
    · rw [if_pos hemp, List.isEmpty_iff.mp hemp]
      rfl
    · rw [if_neg hemp]
      by_cases hval : (validSubjectsOf subjects).isEmpty = true
      · rw [if_pos hval, List.length_replicate]
      · rw [if_neg hval]
        cases hg : gateway (createBatchPrompt template (validSubjectsOf subjects)) with
        | none =>
            show (List.replicate subjects.length false).length = subjects.length
            rw [List.length_replicate]
        | some r =>
            exact scatter_length _ _ _
  · intro i hi hblank
    rw [classifyEmailBatch_eq]
    by_cases hemp : subjects.isEmpty = true
    · rw [List.isEmpty_iff.mp hemp] at hi
      simp at hi
    · rw [if_neg hemp]
      by_cases hval : (validSubjectsOf subjects).isEmpty = true
      · rw [if_pos hval]
        exact replicate_getD_false _ _
      · rw [if_neg hval]
        cases hg : gateway (createBatchPrompt template (validSubjectsOf subjects)) with
        | none =>
            show (List.replicate subjects.length false).getD i false = false
            exact replicate_getD_false _ _
        | some r =>
            exact scatter_getD_false _ _ _ i
              (validPairs_fst_ne_of_blank subjects i hblank)
  · intro j hj
    rw [classifyEmailBatch_eq]
    unfold batchVerdicts
    have hemp : subjects.isEmpty = false := by
      cases s : subjects with
      | nil =>
          exfalso
          rw [s, show (validPairs ([] : List String)).length = 0 from rfl] at hj
          exact absurd hj (Nat.not_lt_zero j)
      | cons a t => rfl
    have hval : (validSubjectsOf subjects).isEmpty = false := by
      cases hv : validSubjectsOf subjects with
      | nil =>
          exfalso
          have hls := validSubjects_length subjects
          rw [hv, List.length_nil] at hls
          omega
      | cons a t => rfl
    rw [hemp, if_neg (by decide), hval, if_neg (by decide)]
    cases hg : gateway (createBatchPrompt template (validSubjectsOf subjects)) with
    | none =>
        show (List.replicate subjects.length false).getD _ false
          = (List.replicate (validSubjectsOf subjects).length false).getD j false
        rw [replicate_getD_false, replicate_getD_false]
    | some r =>
        exact scatter_validPairs_getD subjects _
          (by rw [parseBatch_length, validSubjects_length]) j hj

/-- Witness for C4: the blank third subject of the scenario list classifies
as false. -/
theorem spec_c4_witness :
    (classifyEmailBatch yesNoGateway "T" sampleSubjects).getD 2 false = false :=
  (spec_c4 yesNoGateway "T" sampleSubjects).2.1 2 (by decide) (by decide)

/-- C9: the driver truncates the fetched list to the first 20 emails with a
nonblank subject; only those are classified, and every reconciled record was
extracted from one of them. -/
theorem spec_c9 (classify : List String → List Bool)
    (extract : Email → Option JobApplicationStatus) (emails : List Email)
    (r : JobApplicationStatus) (hr : r ∈ pipelineRecords classify extract emails) :
    (selectEmails emails).length ≤ 20
  ∧ selectEmails emails
      = (emails.filter (fun e => pyStrip e.subject != "")).take 20
  ∧ ∃ e, e ∈ selectEmails emails ∧ extract e = some r
      ∧ r.is_job_application_update = true := by
  refine ⟨?_, rfl, ?_⟩
  · unfold selectEmails MAX_EMAILS_TO_PROCESS
    rw [List.length_take]
    exact min_le_left _ _
  · unfold pipelineRecords at hr
    obtain ⟨hr1, hupd⟩ := List.mem_filter.mp hr
    obtain ⟨e, hemem, hext⟩ := List.mem_filterMap.mp hr1
    refine ⟨e, ?_, hext, hupd⟩
    unfold filterEmails at hemem
    obtain ⟨p, hpmem, hpe⟩ := List.mem_map.mp hemem
    have hpz := (List.mem_filter.mp hpmem).1
    have := (List.of_mem_zip hpz).1
    rw [← hpe]
    exact this

/-- Witness for C9 on a one-email fetch whose record survives the whole
pipeline. -/
theorem spec_c9_witness :
    (selectEmails [sampleEmail]).length ≤ 20
  ∧ selectEmails [sampleEmail]
      = ([sampleEmail].filter (fun e => pyStrip e.subject != "")).take 20 :=
  ⟨(spec_c9 constClassifier constExtractor [sampleEmail] sampleRecord (by decide)).1,
   (spec_c9 constClassifier constExtractor [sampleEmail] sampleRecord (by decide)).2.1⟩

end StatusSync
